import Mathlib

/-
  Verification of src/linux/mobile_ocr_plugin.cc.

  The file is GObject boilerplate for a Flutter Linux plugin.  We embed the
  GObject lifecycle shallowly: an instance is a record whose only field is
  the parent GObject header; the class structure carries a dispose slot plus
  the other slots the source never touches; `g_object_new` and
  `g_object_unref` act on an explicit program state holding the live objects
  with their reference counts and an event trace.
-/

namespace MobileOcr

/-- GObject instance header: in the C source every MobileOcrPlugin begins
with a `GObject parent_instance` field.  We model the header by the GType
identifier stamped into the instance by `g_object_new`. -/
structure GObject where
  g_type_id : Nat
  deriving DecidableEq

/-- Instance struct from the source, `struct _MobileOcrPlugin`:
it holds a `GObject parent_instance` and nothing else. -/
structure MobileOcrPlugin where
  parent_instance : GObject
  deriving DecidableEq

/-- The dispose function pointers that can occupy the dispose slot of a
class structure in this program: the GObject parent implementation, and
the override `mobile_ocr_plugin_dispose` installed by the class init. -/
inductive DisposeSlot
  | g_object_dispose_slot
  | mobile_ocr_plugin_dispose_slot
  deriving DecidableEq

/-- The class structure (`GObjectClass` view of `MobileOcrPluginClass`):
the dispose slot the source assigns, plus the remaining slots of the class
structure, which the source never touches (modelled abstractly). -/
structure GObjectClass where
  g_type_name : String
  dispose : DisposeSlot
  finalize : Nat
  set_property : Nat
  get_property : Nat
  constructed_slot : Nat
  deriving DecidableEq

/-- Dispose implementation of the plain GObject parent class: the plugin
subclass holds no data for it to clear, so it leaves the instance
unchanged. -/
def g_object_dispose (object : MobileOcrPlugin) : MobileOcrPlugin :=
  object

/-- From the source: `static void mobile_ocr_plugin_init(MobileOcrPlugin*
self)` has an empty body, so the instance is returned exactly as the
allocator produced it. -/
def mobile_ocr_plugin_init (self : MobileOcrPlugin) : MobileOcrPlugin :=
  self

/-- From the source: `mobile_ocr_plugin_dispose` chains up with
`G_OBJECT_CLASS(mobile_ocr_plugin_parent_class)->dispose(object)` and does
nothing else.  The parent dispose pointer is passed explicitly. -/
def mobile_ocr_plugin_dispose (parent_dispose : MobileOcrPlugin → MobileOcrPlugin)
    (object : MobileOcrPlugin) : MobileOcrPlugin :=
  parent_dispose object

/-- Interpretation of a dispose slot as a function on instances.  The
override receives the parent class dispose as its chain-up target, matching
`mobile_ocr_plugin_parent_class` resolving to the GObject class. -/
def runDisposeSlot : DisposeSlot → MobileOcrPlugin → MobileOcrPlugin
  | DisposeSlot.g_object_dispose_slot, o => g_object_dispose o
  | DisposeSlot.mobile_ocr_plugin_dispose_slot, o =>
      mobile_ocr_plugin_dispose g_object_dispose o

/-- From the source: `mobile_ocr_plugin_class_init` sets the class dispose
slot to `mobile_ocr_plugin_dispose` and touches nothing else. -/
def mobile_ocr_plugin_class_init (klass : GObjectClass) : GObjectClass :=
  { klass with dispose := DisposeSlot.mobile_ocr_plugin_dispose_slot }

/-- The GType identifier registered for MobileOcrPlugin by G_DEFINE_TYPE. -/
def mobile_ocr_plugin_type_id : Nat := 1

/-- The parent (GObject) class structure, from which the subclass class
structure is initialized by the type system. -/
def g_object_class_default : GObjectClass :=
  { g_type_name := "GObject",
    dispose := DisposeSlot.g_object_dispose_slot,
    finalize := 0,
    set_property := 0,
    get_property := 0,
    constructed_slot := 0 }

/-- The class structure G_DEFINE_TYPE builds for MobileOcrPlugin: a copy of
the parent class structure, run through `mobile_ocr_plugin_class_init`. -/
def mobile_ocr_plugin_class : GObjectClass :=
  mobile_ocr_plugin_class_init
    { g_object_class_default with g_type_name := "MobileOcrPlugin" }

/-- A live heap object: its identity, its reference count, and its instance
data. -/
structure Obj where
  id : Nat
  refcount : Nat
  data : MobileOcrPlugin
  deriving DecidableEq

/-- Observable lifecycle events recorded by the model. -/
inductive Event
  | constructed (objId : Nat)
  | released (objId : Nat)
  deriving DecidableEq

/-- Program state: the allocation counter, the live objects, and the event
trace (most recent event first). -/
structure ProgState where
  nextId : Nat
  objects : List Obj
  trace : List Event
  deriving DecidableEq

/-- Errors a reference-counting operation could surface: dropping a
reference on an object that is not live. -/
inductive GErr
  | invalid_object
  deriving DecidableEq

/-- Model of `g_object_new(T, nullptr)`: allocate a zeroed instance, stamp
the type into the header, run the instance init chain (here
`mobile_ocr_plugin_init`), and hand out the sole reference. -/
def g_object_new (typeId : Nat) (s : ProgState) : ProgState × Nat :=
  let zeroed : MobileOcrPlugin := { parent_instance := { g_type_id := typeId } }
  let inst :=
    if typeId = mobile_ocr_plugin_type_id then mobile_ocr_plugin_init zeroed else zeroed
  ({ nextId := s.nextId + 1,
     objects := { id := s.nextId, refcount := 1, data := inst } :: s.objects,
     trace := Event.constructed s.nextId :: s.trace },
   s.nextId)

/-- Remove the first live object with the given identity. -/
def removeFirst (objId : Nat) : List Obj → List Obj
  | [] => []
  | o :: rest => if o.id = objId then rest else o :: removeFirst objId rest

/-- Decrement the reference count of the first live object with the given
identity. -/
def decRefFirst (objId : Nat) : List Obj → List Obj
  | [] => []
  | o :: rest =>
      if o.id = objId then { o with refcount := o.refcount - 1 } :: rest
      else o :: decRefFirst objId rest

/-- Model of `g_object_unref`: drop one reference; when the count reaches
zero, run the class dispose (through the slot `class_init` installed) and
free the object.  Unreffing an object that is not live is the error case. -/
def g_object_unref (objId : Nat) (s : ProgState) : Except GErr ProgState :=
  match s.objects.find? (fun o => o.id == objId) with
  | none => Except.error GErr.invalid_object
  | some o =>
      if o.refcount ≤ 1 then
        let _disposed := runDisposeSlot mobile_ocr_plugin_class.dispose o.data
        Except.ok { s with objects := removeFirst objId s.objects,
                           trace := Event.released objId :: s.trace }
      else
        Except.ok { s with objects := decRefFirst objId s.objects,
                           trace := Event.released objId :: s.trace }

/-- An FlPluginRegistrar handle: either null or some host-supplied handle. -/
abbrev FlPluginRegistrar := Option Nat

/-- From the source: the registration entry point constructs one
MobileOcrPlugin with `g_object_new`; the `g_autoptr` cleanup releases the
reference when the local goes out of scope at function exit.  The registrar
parameter is never read, dereferenced or stored. -/
def mobile_ocr_plugin_register_with_registrar (registrar : FlPluginRegistrar)
    (s : ProgState) : Except GErr ProgState :=
  let res := g_object_new mobile_ocr_plugin_type_id s
  g_object_unref res.2 res.1

/-- Observable program state: the live objects (the allocation counter and
the ghost trace are not observable to the host). -/
def observableState (s : ProgState) : List Obj :=
  s.objects

/-- Declaration-level facts about the four functions written in the source
file (name, internal linkage, parameter count, void return). -/
structure CFunctionDecl where
  name : String
  isStatic : Bool
  paramCount : Nat
  returnsVoid : Bool
  deriving DecidableEq

/-- The function definitions appearing in src/linux/mobile_ocr_plugin.cc
(the G_DEFINE_TYPE macro expansion is host-framework plumbing). -/
def sourceDecls : List CFunctionDecl :=
  [{ name := "mobile_ocr_plugin_init", isStatic := true,
     paramCount := 1, returnsVoid := true },
   { name := "mobile_ocr_plugin_dispose", isStatic := true,
     paramCount := 1, returnsVoid := true },
   { name := "mobile_ocr_plugin_class_init", isStatic := true,
     paramCount := 1, returnsVoid := true },
   { name := "mobile_ocr_plugin_register_with_registrar", isStatic := false,
     paramCount := 1, returnsVoid := true }]

/-- Registration evaluates to an explicit final state: the allocation
counter advanced by one, the live objects exactly as before, and the trace
extended by one construction and one release of the same fresh object. -/
lemma register_eval (registrar : FlPluginRegistrar) (s : ProgState) :
    mobile_ocr_plugin_register_with_registrar registrar s =
      Except.ok { nextId := s.nextId + 1,
                  objects := s.objects,
                  trace := Event.released s.nextId ::
                           Event.constructed s.nextId :: s.trace } := by
  simp [mobile_ocr_plugin_register_with_registrar, g_object_new, g_object_unref,
        mobile_ocr_plugin_init, removeFirst, runDisposeSlot, g_object_dispose,
        mobile_ocr_plugin_dispose, List.find?]

/-- C1: for every registrar handle, the registration entry point constructs
exactly one MobileOcrPlugin instance (one construction event for the fresh
identity), never stores it in or attaches it to the registrar (the
registrar argument is not used at all: any handle yields the same result,
and the final live objects are exactly the initial ones), and the instance
is released before the function returns (the release event for the same
identity precedes the return, and the instance is no longer live). -/
theorem register_constructs_one_and_releases (registrar : FlPluginRegistrar)
    (s : ProgState) :
    (∀ registrar2 : FlPluginRegistrar,
        mobile_ocr_plugin_register_with_registrar registrar2 s =
          mobile_ocr_plugin_register_with_registrar registrar s) ∧
    mobile_ocr_plugin_register_with_registrar registrar s =
      Except.ok { nextId := s.nextId + 1,
                  objects := s.objects,
                  trace := Event.released s.nextId ::
                           Event.constructed s.nextId :: s.trace } :=
  ⟨fun registrar2 => (register_eval registrar2 s).trans (register_eval registrar s).symm,
   register_eval registrar s⟩

/-- C2: for every registrar handle and every prior state, registration
returns normally (no error) and does not leak the constructed instance:
the live objects at exit are exactly the live objects at entry, so the
construction and the release are paired. -/
theorem register_no_crash_no_leak (registrar : FlPluginRegistrar)
    (s : ProgState) :
    ∃ s2, mobile_ocr_plugin_register_with_registrar registrar s = Except.ok s2 ∧
      s2.objects = s.objects :=
  ⟨_, register_eval registrar s, rfl⟩

/-- C3: no operation defined in the source can fail in any surfaced way:
registration never returns an error for any input, construction and init
complete normally returning the instance unchanged, disposal completes
normally forwarding to the parent, and class initialization completes
normally producing the updated class structure. -/
theorem operations_never_fail :
    (∀ (registrar : FlPluginRegistrar) (s : ProgState),
        ∃ s2, mobile_ocr_plugin_register_with_registrar registrar s = Except.ok s2) ∧
    (∀ self, mobile_ocr_plugin_init self = self) ∧
    (∀ parent_dispose object,
        mobile_ocr_plugin_dispose parent_dispose object = parent_dispose object) ∧
    (∀ klass, mobile_ocr_plugin_class_init klass =
        { klass with dispose := DisposeSlot.mobile_ocr_plugin_dispose_slot }) :=
  ⟨fun registrar s => ⟨_, register_eval registrar s⟩,
   fun _ => rfl, fun _ _ => rfl, fun _ => rfl⟩

/-- C4: for every instance, `mobile_ocr_plugin_dispose` forwards the object
to the parent type dispose routine and performs no other action: its result
is exactly the parent dispose applied to the object. -/
theorem dispose_forwards_to_parent
    (parent_dispose : MobileOcrPlugin → MobileOcrPlugin)
    (object : MobileOcrPlugin) :
    mobile_ocr_plugin_dispose parent_dispose object = parent_dispose object :=
  rfl

/-- C5: construction produces a zeroed instance: `mobile_ocr_plugin_init`
writes nothing, so the freshly constructed object carries exactly the
zero-initialized instance data beyond the stamped parent header, and the
construction call takes no parameters beyond the type. -/
theorem construction_produces_zeroed_instance :
    (∀ self, mobile_ocr_plugin_init self = self) ∧
    (∀ s : ProgState, (g_object_new mobile_ocr_plugin_type_id s).1.objects =
        { id := s.nextId, refcount := 1,
          data := { parent_instance := { g_type_id := mobile_ocr_plugin_type_id } } }
          :: s.objects) :=
  ⟨fun _ => rfl, fun _ => rfl⟩

/-- C6: the MobileOcrPlugin type carries no state of its own: an instance
is determined by its parent header alone (zero further attributes), and no
operation in the source mutates an instance after construction: init
returns the instance unchanged, every dispose path leaves the instance
unchanged, and registration leaves every pre-existing live object exactly
as it was. -/
theorem plugin_carries_no_state :
    (∀ x y : MobileOcrPlugin, x.parent_instance = y.parent_instance → x = y) ∧
    (∀ self, mobile_ocr_plugin_init self = self) ∧
    (∀ slot object, runDisposeSlot slot object = object) ∧
    (∀ (registrar : FlPluginRegistrar) (s : ProgState),
        ∃ s2, mobile_ocr_plugin_register_with_registrar registrar s = Except.ok s2 ∧
          s2.objects = s.objects) :=
  ⟨fun x _ h => by cases x; cases h; rfl,
   fun _ => rfl,
   fun slot object => by cases slot <;> rfl,
   fun registrar s => ⟨_, register_eval registrar s, rfl⟩⟩

/-- C6 witness: the header-determines-instance hypothesis discharged at a
concrete pair of instances. -/
theorem plugin_carries_no_state_witness :
    ({ parent_instance := { g_type_id := 7 } } : MobileOcrPlugin).parent_instance =
      ({ parent_instance := { g_type_id := 7 } } : MobileOcrPlugin).parent_instance ∧
    ({ parent_instance := { g_type_id := 7 } } : MobileOcrPlugin) =
      { parent_instance := { g_type_id := 7 } } :=
  ⟨rfl, plugin_carries_no_state.1
    { parent_instance := { g_type_id := 7 } }
    { parent_instance := { g_type_id := 7 } } rfl⟩

/-- C7: the only externally exposed operation of the source (the only
function without internal linkage) is the registration entry point, and it
takes exactly one parameter, the registrar handle, and returns void. -/
theorem single_external_entry_point :
    sourceDecls.filter (fun d => !d.isStatic) =
      [{ name := "mobile_ocr_plugin_register_with_registrar", isStatic := false,
         paramCount := 1, returnsVoid := true }] := by
  decide

/-- C8: the observable effect of registration is independent of the
registrar argument: any two handles, including the null handle, drive the
function to identical results from every starting state. -/
theorem register_independent_of_registrar (r r2 : FlPluginRegistrar)
    (s : ProgState) :
    mobile_ocr_plugin_register_with_registrar r s =
      mobile_ocr_plugin_register_with_registrar r2 s ∧
    mobile_ocr_plugin_register_with_registrar none s =
      mobile_ocr_plugin_register_with_registrar r s :=
  ⟨rfl, rfl⟩

/-- C9: registration is idempotent in effect: calling it twice in
succession succeeds and leaves the observable program state (the live
objects) identical to the state after one call, which itself equals the
observable state before any call. -/
theorem register_idempotent_in_effect (registrar : FlPluginRegistrar)
    (s : ProgState) :
    ∃ s1 s2,
      mobile_ocr_plugin_register_with_registrar registrar s = Except.ok s1 ∧
      mobile_ocr_plugin_register_with_registrar registrar s1 = Except.ok s2 ∧
      observableState s2 = observableState s1 ∧
      observableState s1 = observableState s :=
  ⟨_, _, register_eval registrar s, register_eval registrar _, rfl, rfl⟩

/-- C10: `mobile_ocr_plugin_class_init` modifies only the dispose slot of
the class structure, setting it to `mobile_ocr_plugin_dispose`; every other
field of the class structure keeps its value at entry. -/
theorem class_init_touches_only_dispose (klass : GObjectClass) :
    (mobile_ocr_plugin_class_init klass).dispose =
        DisposeSlot.mobile_ocr_plugin_dispose_slot ∧
    (mobile_ocr_plugin_class_init klass).g_type_name = klass.g_type_name ∧
    (mobile_ocr_plugin_class_init klass).finalize = klass.finalize ∧
    (mobile_ocr_plugin_class_init klass).set_property = klass.set_property ∧
    (mobile_ocr_plugin_class_init klass).get_property = klass.get_property ∧
    (mobile_ocr_plugin_class_init klass).constructed_slot = klass.constructed_slot :=
  ⟨rfl, rfl, rfl, rfl, rfl, rfl⟩

end MobileOcr
